import Mathlib

/-!
Shallow embedding of `src/tbgclient/forum.py` (forum entities of tbgclient).

The module under verification defines:
  - `check_fields`, a field-presence validator raising `IncompleteError`;
  - `_Indexed.update` / `_Indexed.submit`, a reflective method dispatcher;
  - `Page`, a generic paginated container casting raw records at construction;
  - the entity dataclasses `User`, `Topic`, `Message` with their handlers.

External collaborators (the `api` transport functions, the HTML parsers in
`parsers.forum`, the `Session` object, the `PostIcons` enumeration and the
`TOPIC_PER_PAGE` constant) are not part of `src/`; they are modelled as opaque
structured inputs (`ForumEnv`, `Session`, `PostIcons`), following the spec,
which declares them out of scope.

Python exceptions are modelled by the `PyErr` inductive and fallible
operations return `Except PyErr`.  Network activity of a handler is made
observable as the list of `Request` values it issues.
-/

set_option autoImplicit false

namespace Tbg

deriving instance DecidableEq for Except

/-- A transport response; the code only ever reads its `text` body and
forwards the response object itself into `RequestError`. -/
structure Response where
  text : String
deriving DecidableEq, Inhabited

/-- Python exceptions raised by the code under verification:
`IncompleteError(missing)`, `NotImplementedError(msg)`, `TypeError(msg)`,
`RequestError(msg, response=...)` and `IndexError` (from `hierarchy[-1]`). -/
inductive PyErr where
  | incomplete (missing : List String)
  | notImplemented (msg : String)
  | typeError (msg : String)
  | requestError (msg : String) (resp : Option Response)
  | indexError (msg : String)
deriving DecidableEq

/-- One network request issued through the `api` collaborator. -/
inductive Request where
  | topicPage (tid : Int) (offset : Int)
  | messagePage (mid : Int)
deriving DecidableEq

/-- `check_fields(self, *fields)` (forum.py lines 17-24): collect every
requested field whose current value on the instance is `None`; raise
`IncompleteError` with the whole list when it is non-empty.  The instance
is abstracted by its field-absence observer `is_missing` (the code only
reads `getattr(self, field) is None`); the function mutates nothing. -/
def check_fields (is_missing : String → Bool) (fs : List String) : Except PyErr Unit :=
  let missing := fs.filter is_missing
  if missing ≠ [] then .error (.incomplete missing) else .ok ()

/-! ## The `_Indexed` dispatcher (forum.py lines 27-77)

`update`/`submit` work reflectively: `fields(self)` for the declared
dataclass field names, `dir(self)` for the attribute names, `setattr` for
the override assignments.  An instance is therefore modelled at this level
as a Python attribute map from names to values, and a variant by the static
data the dispatcher reads from it.  Per the spec the external bases
(`Indexed`, `UsesSession`, `Paged`) contribute no `update_*`/`submit_*`
attribute and no extra dataclass field. -/

/-- A Python attribute value, as far as the dispatcher observes it. -/
inductive PyVal where
  | pyNone
  | int (n : Int)
  | str (s : String)
deriving DecidableEq

/-- A Python instance as an attribute map (insertion-ordered). -/
def Obj := List (String × PyVal)
deriving DecidableEq

/-- `setattr(self, k, v)`: overwrite the first binding of `k`, else append. -/
def Obj.set : Obj → String → PyVal → Obj
  | [], k, v => [(k, v)]
  | (k', v') :: rest, k, v =>
      if k' = k then (k, v) :: rest else (k', v') :: Obj.set rest k v

/-- `getattr`-style lookup on the attribute map. -/
def Obj.get? (o : Obj) (k : String) : Option PyVal :=
  (List.lookup k o : Option PyVal)

/-- The static data the dispatcher reads from an entity variant:
`field_names` is `{field.name for field in fields(self)}`, `attrs` is
`dir(self)`, the two defaults are the class attributes, and
`handler_pos_params h` is the number of positional parameters (besides
`self`) the handler named `h` accepts. -/
structure PyClass where
  field_names : List String
  attrs : List String
  default_update_method : String
  default_submit_method : String
  handler_pos_params : String → Nat

/-- The override-partition loop of `update`/`submit` (forum.py lines 44-49
and 67-72): each keyword whose key is a declared field is assigned onto the
instance with `setattr`; the rest accumulate into `excess_kwargs` in order. -/
def apply_overrides (c : PyClass) (s : Obj) (kwargs : List (String × PyVal)) :
    Obj × List (String × PyVal) :=
  kwargs.foldl
    (fun acc kv =>
      if kv.1 ∈ c.field_names then (acc.1.set kv.1 kv.2, acc.2)
      else (acc.1, acc.2 ++ [kv]))
    (s, [])

/-- Outcome of a dispatch: either an exception was raised (with the state
of the instance at raise time), or control entered a handler body.
`invoked h s` records that the bound handler `h` was called — with the
instance passed again as an explicit positional argument, exactly as
`getattr(self, method_name, **excess_kwargs)(self)` does. -/
inductive DispatchOutcome where
  | raised (e : PyErr) (state : Obj)
  | invoked (handler : String) (state : Obj)
deriving DecidableEq

/-- Common body of `_Indexed.update` and `_Indexed.submit` (identical up to
the name prefix and the default method).  Mirrors forum.py lines 32-54:
resolve the default, build `method_name`, partition the keyword overrides
(assigning declared fields via `setattr`), then

  `return getattr(self, method_name, **excess_kwargs)(self)`

whose CPython semantics are: `getattr` accepts no keyword arguments, so a
non-empty `excess_kwargs` raises `TypeError` at once; otherwise the bound
method is called with `self` as one extra positional argument, which is a
`TypeError` unless the handler accepts at least one positional parameter
besides `self`.  A missing attribute raises `NotImplementedError`. -/
def Indexed.dispatch (c : PyClass) (px : String) (dflt : String) (s : Obj)
    (method : Option String) (kwargs : List (String × PyVal)) : DispatchOutcome :=
  let m := method.getD dflt
  let method_name := px ++ m
  let parts := apply_overrides c s kwargs
  if method_name ∈ c.attrs then
    if parts.2 = [] then
      if 1 ≤ c.handler_pos_params method_name then
        .invoked method_name parts.1
      else
        .raised (.typeError (method_name ++
          "() takes 1 positional argument but 2 were given")) parts.1
    else
      .raised (.typeError "getattr() takes no keyword arguments") parts.1
  else
    .raised (.notImplemented ("method " ++ m ++ " not implemented")) parts.1

/-- `_Indexed.update` (forum.py lines 32-54). -/
def Indexed.update (c : PyClass) (s : Obj) (method : Option String)
    (kwargs : List (String × PyVal)) : DispatchOutcome :=
  Indexed.dispatch c "update_" c.default_update_method s method kwargs

/-- `_Indexed.submit` (forum.py lines 56-77). -/
def Indexed.submit (c : PyClass) (s : Obj) (method : Option String)
    (kwargs : List (String × PyVal)) : DispatchOutcome :=
  Indexed.dispatch c "submit_" c.default_submit_method s method kwargs

/-! ## Data model of the entity dataclasses -/

/-- Modelled from the spec: `Session` is the opaque authenticated context
from the `session` module (not under `src/`); no operation here reads it. -/
structure Session where
  sid : Nat
deriving DecidableEq, Inhabited

/-- Modelled from the spec: `PostIcons` is the post-icon enumeration from
`protocols.forum` (not under `src/`); `PostIcons.mk s` models the enum
lookup `PostIcons(s)` normalizing a raw string into the enumeration value. -/
structure PostIcons where
  value : String
deriving DecidableEq

/-- A raw mapping (Python `dict`) holding keyword data for `User`; a `none`
field stands for an absent key (the dataclass default `None` then applies)
or an explicit `None` value — indistinguishable to the code. -/
structure UserDict where
  uid : Option Int := none
  name : Option String := none
  avatar : Option String := none
  group : Option String := none
  posts : Option Int := none
  signature : Option String := none
  email : Option String := none
  blurb : Option String := none
  location : Option String := none
  real_name : Option String := none
  social : Option (List (String × String)) := none
  website : Option String := none
  gender : Option String := none
deriving DecidableEq

/-- The `User` dataclass (forum.py lines 105-120): thirteen optional
fields, all defaulting to `None`; no `__post_init__`. -/
structure User where
  uid : Option Int := none
  name : Option String := none
  avatar : Option String := none
  group : Option String := none
  posts : Option Int := none
  signature : Option String := none
  email : Option String := none
  blurb : Option String := none
  location : Option String := none
  real_name : Option String := none
  social : Option (List (String × String)) := none
  website : Option String := none
  gender : Option String := none
deriving DecidableEq

/-- `User(**d)`: the dataclass `__init__`, a plain field-by-field
assignment from the raw mapping. -/
def User.from_dict (d : UserDict) : User :=
  { uid := d.uid, name := d.name, avatar := d.avatar, group := d.group,
    posts := d.posts, signature := d.signature, email := d.email,
    blurb := d.blurb, location := d.location, real_name := d.real_name,
    social := d.social, website := d.website, gender := d.gender }

/-- The possible runtime values of `Message.user`: `None`, a raw `dict`
(as produced by the parser), or an already-constructed `User`.
`type(self.user) is dict` distinguishes exactly the `dict` case. -/
inductive UserVal where
  | null
  | dict (d : UserDict)
  | obj (u : User)
deriving DecidableEq

/-- The possible runtime values of `Message.icon`: `None`, a raw string,
or a `PostIcons` enumeration value. -/
inductive IconVal where
  | null
  | str (s : String)
  | enum (i : PostIcons)
deriving DecidableEq

/-- The `Message` dataclass fields (forum.py lines 175-191).  The same
record type serves as the keyword data of a raw parsed record (absent keys
modelled as the `None` defaults they would receive) and as the instance
state after `__init__` ran. -/
structure Message where
  tid : Option Int := none
  mid : Option Int := none
  subject : Option String := none
  date : Option String := none
  edited : Option String := none
  content : Option String := none
  user : UserVal := .null
  icon : IconVal := .null
deriving DecidableEq

/-- `Message.__post_init__` (forum.py lines 193-197): a raw `dict` for
`user` becomes `User(**self.user)`; a raw string for `icon` becomes
`PostIcons(self.icon)`; anything else is left untouched. -/
def Message.post_init (m : Message) : Message :=
  { m with
    user := match m.user with
      | .dict d => .obj (User.from_dict d)
      | u => u,
    icon := match m.icon with
      | .str s => .enum (PostIcons.mk s)
      | i => i }

/-- `Message(**kwargs)` / `self.__init__(**kwargs)`: dataclass field
assignment followed by `__post_init__`. -/
def Message.init (kwargs : Message) : Message :=
  Message.post_init kwargs

/-- `getattr(self, f) is None` on a `Message` instance, for the field
names `check_fields` is called with. -/
def Message.field_is_none (m : Message) : String → Bool
  | "tid" => m.tid.isNone
  | "mid" => m.mid.isNone
  | "subject" => m.subject.isNone
  | "date" => m.date.isNone
  | "edited" => m.edited.isNone
  | "content" => m.content.isNone
  | "user" => match m.user with | .null => true | _ => false
  | "icon" => match m.icon with | .null => true | _ => false
  | _ => true

/-- The result of `forum_parser.parse_page(text, parse_topic_content)`: the
hierarchy of `(display name, url)` pairs, the two page numbers, and the raw
message records of the page. -/
structure ParsedPage where
  hierarchy : List (String × String)
  current_page : Int
  total_pages : Int
  contents : List Message
deriving DecidableEq

/-- The external collaborators of the handlers, as opaque functions
(spec section 6): the `api` transport calls keyed by their arguments, the
parser, the response-body error check (`some msg` means
`check_errors` raises `RequestError(msg, response=...)`), and the
`TOPIC_PER_PAGE` page-size constant. -/
structure ForumEnv where
  get_topic_page : Int → Int → Response
  get_message_page : Int → Response
  parse_page : String → ParsedPage
  check_errors : String → Response → Option String
  TOPIC_PER_PAGE : Int

/-- `Message.update_get` (forum.py lines 208-226): validate `mid`, fetch
the message page, run the body error check, parse, and take the first
parsed record whose `mid` equals the instance's; reinitialize the whole
instance from it via `self.__init__(**post)`, or raise `RequestError`
with the response attached when no record matches.  The second component
lists the requests issued.  (The `.ok _, none` branch is unreachable:
`check_fields` on `["mid"]` succeeded exactly when `mid` is present.) -/
def Message.update_get (env : ForumEnv) (self : Message) :
    Except PyErr (Message × List Request) :=
  match check_fields (Message.field_is_none self) ["mid"], self.mid with
  | .error e, _ => .error e
  | .ok _, none => .error (.incomplete ["mid"])
  | .ok _, some mid =>
    let res := env.get_message_page mid
    match env.check_errors res.text res with
    | some msg => .error (.requestError msg (some res))
    | none =>
      let parsed := env.parse_page res.text
      match (parsed.contents.filter (fun x => x.mid == some mid)).head? with
      | some post => .ok (Message.init post, [.messagePage mid])
      | none => .error (.requestError "Requested post doesn't exist in page"
                          (some res))

/-- The `Topic` dataclass state (forum.py lines 123-136).  `tid`,
`topic_name` and `pages` are its declared fields; `name` is the separate
attribute that `get_page` writes opportunistically (line 167); and
`total_pages` is the inherited `Paged` slot that `__post_init__` zeroes. -/
structure Topic where
  tid : Option Int := none
  topic_name : Option String := none
  pages : Option Int := none
  name : Option String := none
  total_pages : Int := 0
deriving DecidableEq

/-- `getattr(self, f) is None` on a `Topic` instance. -/
def Topic.field_is_none (t : Topic) : String → Bool
  | "tid" => t.tid.isNone
  | "topic_name" => t.topic_name.isNone
  | "pages" => t.pages.isNone
  | _ => true

/-- `Topic.update_get` (forum.py lines 138-150): validate `tid`, fetch the
page at record offset 0, parse, take the last hierarchy entry as
`topic_name` and the parsed total as `pages`, return `self`.  An empty
hierarchy would make `parsed["hierarchy"][-1]` raise `IndexError`. -/
def Topic.update_get (env : ForumEnv) (self : Topic) :
    Except PyErr (Topic × List Request) :=
  match check_fields (Topic.field_is_none self) ["tid"], self.tid with
  | .error e, _ => .error e
  | .ok _, none => .error (.incomplete ["tid"])
  | .ok _, some tid =>
    let res := env.get_topic_page tid 0
    let parsed := env.parse_page res.text
    match parsed.hierarchy.getLast? with
    | none => .error (.indexError "list index out of range")
    | some (last_name, _last_url) =>
      .ok ({ self with
             topic_name := some last_name,
             pages := some parsed.total_pages },
           [.topicPage tid 0])

/-- What a successful `Topic.get_page` call produces: the constructed
message list (its return value), the new instance state, the warnings
emitted via `warnings.warn`, and the requests issued. -/
structure GetPageResult where
  messages : List Message
  new_self : Topic
  warnings : List String
  requests : List Request
deriving DecidableEq

/-- `Topic.get_page` (forum.py lines 152-169): validate `tid`, fetch the
page at record offset `(page - 1) * TOPIC_PER_PAGE`, parse, warn (without
raising) when the parser-reported current page differs from the requested
one, opportunistically set `self.name` from the last hierarchy entry and
`self.pages` from the parsed total, and return `[Message(**msg) for msg in
parsed["contents"]]`. -/
def Topic.get_page (env : ForumEnv) (self : Topic) (page : Int) :
    Except PyErr GetPageResult :=
  match check_fields (Topic.field_is_none self) ["tid"], self.tid with
  | .error e, _ => .error e
  | .ok _, none => .error (.incomplete ["tid"])
  | .ok _, some tid =>
    let offset := (page - 1) * env.TOPIC_PER_PAGE
    let res := env.get_topic_page tid offset
    let parsed := env.parse_page res.text
    let warns :=
      if page ≠ parsed.current_page then
        ["Expected page " ++ toString page ++ ", got page " ++
          toString parsed.current_page]
      else []
    match parsed.hierarchy.getLast? with
    | none => .error (.indexError "list index out of range")
    | some (last_name, _last_url) =>
      .ok { messages := parsed.contents.map Message.init,
            new_self := { self with
                          name := some last_name,
                          pages := some parsed.total_pages },
            warnings := warns,
            requests := [.topicPage tid offset] }

/-- The `Page` dataclass after construction (forum.py lines 80-102). -/
structure Page (α : Type) where
  hierarchy : List (String × String)
  current_page : Int
  total_pages : Int
  contents : List α
deriving DecidableEq

/-- Constructing a `Page`: the dataclass `__init__` stores the four data
fields, then `__post_init__` replaces `contents` with
`[content_type(**x) for x in self.contents]` — each raw record alone is
handed to the content constructor; the `session` init-var is not passed to
it (it is only made available through the shared session-binding
mechanism). -/
def Page.construct {ρ α : Type} (hierarchy : List (String × String))
    (current_page total_pages : Int) (contents : List ρ)
    (content_type : ρ → α) (_session : Session) : Page α :=
  { hierarchy := hierarchy, current_page := current_page,
    total_pages := total_pages, contents := contents.map content_type }

/-- The dispatcher-level view of the `Message` variant: its declared
dataclass fields, its `dir(self)` (restricted to the names defined in
forum.py; per the spec the external bases add no `update_*`/`submit_*`
name), its inherited default methods, and the positional arity of each
handler (`submit_edit(self, reason="")` accepts one positional argument
besides `self`; the other handlers accept none). -/
def Message.py_class : PyClass :=
  { field_names := ["tid", "mid", "subject", "date", "edited", "content",
                    "user", "icon"],
    attrs := ["tid", "mid", "subject", "date", "edited", "content",
              "user", "icon", "update", "submit",
              "default_update_method", "default_submit_method",
              "submit_post", "update_get", "submit_edit",
              "update_quotefast"],
    default_update_method := "get",
    default_submit_method := "post",
    handler_pos_params := fun h => if h = "submit_edit" then 1 else 0 }

/-- A bare `Message()` instance, as the attribute map the dispatcher sees:
every declared field holds `None`. -/
def Message.obj_default : Obj :=
  [("tid", .pyNone), ("mid", .pyNone), ("subject", .pyNone),
   ("date", .pyNone), ("edited", .pyNone), ("content", .pyNone),
   ("user", .pyNone), ("icon", .pyNone)]

/-- A raw message record as a parser would produce it: `user` is a raw
mapping and `icon` a raw string. -/
def sample_record : Message :=
  { mid := some 7, tid := some 42, subject := some "hi",
    user := .dict { name := some "bob" }, icon := .str "smiley" }

/-- A concrete collaborator instance: every fetched page parses to the same
two-level hierarchy ending in `("My Topic", "/t/42")`, current page 1 of 5,
containing the single raw record `sample_record`; no body-level errors. -/
def sample_env : ForumEnv :=
  { get_topic_page := fun _ _ => ⟨"page"⟩,
    get_message_page := fun _ => ⟨"page"⟩,
    parse_page := fun _ =>
      { hierarchy := [("General", "/g"), ("My Topic", "/t/42")],
        current_page := 1, total_pages := 5,
        contents := [sample_record] },
    check_errors := fun _ _ => none,
    TOPIC_PER_PAGE := 50 }

/-- A `Topic` whose `topic_name` was set before calling `get_page`. -/
def sample_topic : Topic :=
  { tid := some 42, topic_name := some "Old" }

/-! ## Theorems -/

theorem Topic.field_is_none_tid (t : Topic) :
    Topic.field_is_none t "tid" = t.tid.isNone := rfl

theorem Message.field_is_none_mid (m : Message) :
    Message.field_is_none m "mid" = m.mid.isNone := rfl

/-- `__post_init__` never leaves a raw mapping in `user`. -/
theorem Message.init_user_ne_dict (p : Message) (d : UserDict) :
    (Message.init p).user ≠ .dict d := by
  simp only [Message.init, Message.post_init]
  cases p.user <;> simp

/-- `__post_init__` never leaves a raw string in `icon`. -/
theorem Message.init_icon_ne_str (p : Message) (s : String) :
    (Message.init p).icon ≠ .str s := by
  simp only [Message.init, Message.post_init]
  cases p.icon <;> simp

/-- C2: `check_fields` scans all the requested field names: when at least
one is absent on the instance it raises `IncompleteError` carrying the full
list of missing names — a name is in that list exactly when it was
requested and is absent — and when none are missing it returns normally
(the function only reads the instance, so there is no observable effect). -/
theorem check_fields_collects_all_missing (is_missing : String → Bool)
    (fs : List String) :
    ((∃ f ∈ fs, is_missing f = true) →
      check_fields is_missing fs =
        .error (.incomplete (fs.filter is_missing)) ∧
      ∀ g, g ∈ fs.filter is_missing ↔ (g ∈ fs ∧ is_missing g = true)) ∧
    ((∀ f ∈ fs, is_missing f = false) →
      check_fields is_missing fs = .ok ()) := by
  constructor
  · rintro ⟨f, hf, hm⟩
    have hne : fs.filter is_missing ≠ [] := by
      intro hnil
      have : f ∈ fs.filter is_missing := List.mem_filter.mpr ⟨hf, hm⟩
      simp [hnil] at this
    constructor
    · simp [check_fields, hne]
    · intro g
      simp [List.mem_filter]
  · intro hall
    have hnil : fs.filter is_missing = [] := by
      apply List.filter_eq_nil_iff.mpr
      intro a ha
      simp [hall a ha]
    simp [check_fields, hnil]

/-- Witness for C2 at concrete inputs: `tid` and `mid` absent, `subject`
present, collects both missing names; nothing absent returns normally. -/
theorem check_fields_collects_all_missing_witness :
    check_fields (fun f => f == "tid" || f == "mid")
        ["tid", "mid", "subject"] =
      .error (.incomplete (["tid", "mid", "subject"].filter
        (fun f => f == "tid" || f == "mid"))) ∧
    check_fields (fun _ : String => false) ["mid"] = .ok () :=
  ⟨((check_fields_collects_all_missing _ _).1 ⟨"tid", by decide, by decide⟩).1,
   (check_fields_collects_all_missing _ _).2 (by decide)⟩

/-- C3: whenever the concatenated handler name (`update_` resp. `submit_`
plus the resolved method name) is not an attribute of the variant, the
respective dispatcher raises `NotImplementedError` with the
"method ... not implemented" message — each dispatcher independently of
the other's handlers.  In the model a network request can only be issued
inside a handler body, i.e. in an `invoked` outcome; the outcome here is
`raised`, and the final instance state is exactly the input state with the
declared-field overrides applied — so no handler ran and no network side
effect occurred. -/
theorem dispatch_unknown_method_not_implemented (c : PyClass) (s : Obj)
    (method : Option String) (kwargs : List (String × PyVal)) :
    (("update_" ++ method.getD c.default_update_method) ∉ c.attrs →
      Indexed.update c s method kwargs =
        .raised (.notImplemented ("method " ++ method.getD c.default_update_method
          ++ " not implemented")) (apply_overrides c s kwargs).1) ∧
    (("submit_" ++ method.getD c.default_submit_method) ∉ c.attrs →
      Indexed.submit c s method kwargs =
        .raised (.notImplemented ("method " ++ method.getD c.default_submit_method
          ++ " not implemented")) (apply_overrides c s kwargs).1) := by
  constructor <;> intro h <;>
    simp [Indexed.update, Indexed.submit, Indexed.dispatch, h]

/-- Witness for C3: `Message.update(method="post")` raises even though a
`submit_post` handler exists (only `update_post` is missing), and
symmetrically `Message.submit(method="get")` raises even though
`update_get` exists; the instance is untouched (no overrides). -/
theorem dispatch_unknown_method_not_implemented_witness :
    Indexed.update Message.py_class Message.obj_default (some "post") [] =
      .raised (.notImplemented ("method " ++ (some "post").getD
        Message.py_class.default_update_method ++ " not implemented"))
        (apply_overrides Message.py_class Message.obj_default []).1 ∧
    Indexed.submit Message.py_class Message.obj_default (some "get") [] =
      .raised (.notImplemented ("method " ++ (some "get").getD
        Message.py_class.default_submit_method ++ " not implemented"))
        (apply_overrides Message.py_class Message.obj_default []).1 :=
  ⟨(dispatch_unknown_method_not_implemented Message.py_class
      Message.obj_default (some "post") []).1 (by decide),
   (dispatch_unknown_method_not_implemented Message.py_class
      Message.obj_default (some "get") []).2 (by decide)⟩

/-- C9: the dispatch is not atomic.  Whenever `update` or `submit` raises
`NotImplementedError`, the instance state at raise time is the input state
with every declared-field override already assigned (the partition loop
runs before the handler lookup); nothing rolls the assignments back. -/
theorem dispatch_mutates_fields_before_lookup (c : PyClass) (s : Obj)
    (method : Option String) (kwargs : List (String × PyVal))
    (msg : String) (s' : Obj) :
    (Indexed.update c s method kwargs = .raised (.notImplemented msg) s' →
      s' = (apply_overrides c s kwargs).1) ∧
    (Indexed.submit c s method kwargs = .raised (.notImplemented msg) s' →
      s' = (apply_overrides c s kwargs).1) := by
  constructor <;>
  · intro h
    simp only [Indexed.update, Indexed.submit, Indexed.dispatch] at h
    repeat' split at h
    all_goals simp_all

/-- Witness for C9: dispatching unknown method `nosuch` on a bare `Message`
with override `subject="y"` leaves `subject` mutated at raise time. -/
theorem dispatch_mutates_fields_before_lookup_witness :
    Message.obj_default.set "subject" (PyVal.str "y") =
      (apply_overrides Message.py_class Message.obj_default
        [("subject", PyVal.str "y")]).1 ∧
    (Message.obj_default.set "subject" (PyVal.str "y")).get? "subject" =
      some (PyVal.str "y") :=
  ⟨(dispatch_mutates_fields_before_lookup Message.py_class Message.obj_default
      (some "nosuch") [("subject", PyVal.str "y")]
      "method nosuch not implemented"
      (Message.obj_default.set "subject" (PyVal.str "y"))).1 (by decide),
   by decide⟩

/-- C1 (code bug): the dispatcher does partition the overrides and assign
the declared-field ones before dispatch, but the line
`return getattr(self, method_name, **excess_kwargs)(self)` never invokes
the handler with the excess overrides: a non-empty `excess_kwargs` is a
`TypeError` inside `getattr` itself, and with no excess overrides the bound
handler is called with `self` as a second positional argument, a
`TypeError` for the zero-argument handlers such as `update_get`.  Both
failure modes evaluated on a bare `Message`. -/
theorem dispatch_getattr_misuse_raises_type_error :
    Indexed.update Message.py_class Message.obj_default none
        [("extra", .str "x"), ("subject", .str "y")] =
      .raised (.typeError "getattr() takes no keyword arguments")
        (Message.obj_default.set "subject" (.str "y")) ∧
    Indexed.update Message.py_class Message.obj_default none [] =
      .raised (.typeError
          "update_get() takes 1 positional argument but 2 were given")
        Message.obj_default := by
  constructor <;> decide

/-- C4: `Message.update_get` with a present `mid`, once the response-body
error check passes, searches the parsed contents for the (first) record
whose `mid` equals the instance's: when one exists the whole instance is
rebuilt from that record by `self.__init__(**post)` (so `__post_init__`
normalizes the embedded user and icon again) and returned; when none
exists it raises `RequestError` carrying the originating response. -/
theorem message_update_get_search_spec (env : ForumEnv) (self : Message)
    (mid : Int) (res : Response)
    (h1 : self.mid = some mid)
    (hres : res = env.get_message_page mid)
    (herr : env.check_errors res.text res = none) :
    (∀ post,
      ((env.parse_page res.text).contents.filter
          (fun x => x.mid == some mid)).head? = some post →
      Message.update_get env self =
        .ok (Message.init post, [.messagePage mid])) ∧
    (((env.parse_page res.text).contents.filter
        (fun x => x.mid == some mid)).head? = none →
      Message.update_get env self =
        .error (.requestError "Requested post doesn't exist in page"
          (some res))) := by
  subst hres
  have hcf : check_fields (Message.field_is_none self) ["mid"] = .ok () := by
    simp [check_fields, Message.field_is_none_mid, h1]
  constructor
  · intro post hpost
    simp [Message.update_get, hcf, h1, herr, hpost]
  · intro hnone
    simp [Message.update_get, hcf, h1, herr, hnone]

/-- Witness for C4 against `sample_env`: `mid = 7` is found and the
instance is rebuilt from the record; `mid = 99` is absent and raises
`RequestError` with the response attached. -/
theorem message_update_get_search_spec_witness :
    Message.update_get sample_env { mid := some 7 } =
      .ok (Message.init sample_record, [.messagePage 7]) ∧
    Message.update_get sample_env { mid := some 99 } =
      .error (.requestError "Requested post doesn't exist in page"
        (some (sample_env.get_message_page 99))) :=
  ⟨(message_update_get_search_spec sample_env { mid := some 7 } 7
      (sample_env.get_message_page 7) rfl rfl rfl).1 sample_record (by decide),
   (message_update_get_search_spec sample_env { mid := some 99 } 99
      (sample_env.get_message_page 99) rfl rfl rfl).2 (by decide)⟩

/-- C5: constructing a `Page` casts the raw records exactly once, mapping
the content constructor over them record-by-record (the session is not
handed to the constructor): the result has the same length and its `i`-th
element is the constructor applied to the `i`-th raw record; two records
with mids 1 and 2 under content type `Message` yield two `Message`s with
the corresponding mids. -/
theorem page_construct_casts_each_record {ρ α : Type}
    (hierarchy : List (String × String)) (cp tp : Int) (records : List ρ)
    (T : ρ → α) (sess : Session) :
    (Page.construct hierarchy cp tp records T sess).contents.length =
      records.length ∧
    (∀ i : Nat,
      (Page.construct hierarchy cp tp records T sess).contents[i]? =
        (records[i]?).map T) ∧
    ((Page.construct [("General", "/g")] 1 3
        [({ mid := some 1 } : Message), { mid := some 2 }]
        Message.init ⟨0⟩).contents.map Message.mid = [some 1, some 2]) := by
  refine ⟨?_, ?_, ?_⟩
  · simp [Page.construct]
  · intro i
    simp [Page.construct]
  · decide

/-- C6: every (re)initialization of a `Message` normalizes a raw mapping in
`user` into a `User` built from it and a raw string in `icon` into the
`PostIcons` value — `Message.init` is a function, so two constructions from
identical input produce these same (structurally equal) values — and any
instance `update_get` hands back went through `self.__init__`, so it never
carries a raw mapping or raw string either. -/
theorem message_init_normalizes (k : Message) (d : UserDict) (s : String)
    (hu : k.user = .dict d) (hi : k.icon = .str s) :
    (Message.init k).user = .obj (User.from_dict d) ∧
    (Message.init k).icon = .enum (PostIcons.mk s) ∧
    (∀ env self m reqs, Message.update_get env self = .ok (m, reqs) →
      (∀ d2, m.user ≠ .dict d2) ∧ (∀ s2, m.icon ≠ .str s2)) := by
  refine ⟨?_, ?_, ?_⟩
  · simp [Message.init, Message.post_init, hu]
  · simp [Message.init, Message.post_init, hi]
  · intro env self m reqs h
    simp only [Message.update_get] at h
    repeat' split at h
    all_goals cases h
    exact ⟨fun d2 => Message.init_user_ne_dict _ d2,
           fun s2 => Message.init_icon_ne_str _ s2⟩

/-- Witness for C6: the sample raw record (raw user mapping, raw icon
string) normalizes to the `User` instance and the enumeration value. -/
theorem message_init_normalizes_witness :
    (Message.init sample_record).user =
      .obj (User.from_dict { name := some "bob" }) ∧
    (Message.init sample_record).icon = .enum (PostIcons.mk "smiley") :=
  ⟨(message_init_normalizes sample_record { name := some "bob" } "smiley"
      rfl rfl).1,
   (message_init_normalizes sample_record { name := some "bob" } "smiley"
      rfl rfl).2.1⟩

/-- C7: `Topic.update_get` with a present `tid` requests record offset 0,
sets `topic_name` to the display name of the last parsed hierarchy entry
and `pages` to the parsed total-page count, leaving the rest of the
instance as it was. -/
theorem topic_update_get_first_page (env : ForumEnv) (self : Topic)
    (tid : Int) (nm url : String)
    (h1 : self.tid = some tid)
    (h2 : (env.parse_page (env.get_topic_page tid 0).text).hierarchy.getLast?
            = some (nm, url)) :
    Topic.update_get env self =
      .ok ({ self with
             topic_name := some nm,
             pages := some (env.parse_page
               (env.get_topic_page tid 0).text).total_pages },
           [.topicPage tid 0]) := by
  have hcf : check_fields (Topic.field_is_none self) ["tid"] = .ok () := by
    simp [check_fields, Topic.field_is_none_tid, h1]
  simp [Topic.update_get, hcf, h1, h2]

/-- Witness for C7 against `sample_env`: the hierarchy ends in
`("My Topic", "/t/42")` with 5 total pages, so `Topic(tid=42).update_get()`
yields `topic_name = "My Topic"` and `pages = 5`. -/
theorem topic_update_get_first_page_witness :
    Topic.update_get sample_env { tid := some 42 } =
      .ok ({ tid := some 42, topic_name := some "My Topic",
             pages := some 5 },
           [.topicPage 42 0]) := by
  have h := topic_update_get_first_page sample_env { tid := some 42 } 42
    "My Topic" "/t/42" rfl rfl
  exact h

/-- C8: `Topic.get_page p` with a present `tid` requests record offset
`(p - 1) * TOPIC_PER_PAGE`; when the parser-reported current page differs
from `p` it only records the non-fatal warning and still completes,
returning the `Message` list built from whatever records the server's page
parsed to. -/
theorem topic_get_page_offset_and_warning (env : ForumEnv) (self : Topic)
    (tid page : Int) (nm url : String)
    (h1 : self.tid = some tid)
    (h2 : (env.parse_page (env.get_topic_page tid
            ((page - 1) * env.TOPIC_PER_PAGE)).text).hierarchy.getLast?
            = some (nm, url))
    (h3 : page ≠ (env.parse_page (env.get_topic_page tid
            ((page - 1) * env.TOPIC_PER_PAGE)).text).current_page) :
    Topic.get_page env self page =
      .ok { messages := (env.parse_page (env.get_topic_page tid
              ((page - 1) * env.TOPIC_PER_PAGE)).text).contents.map
              Message.init,
            new_self := { self with
                          name := some nm,
                          pages := some (env.parse_page (env.get_topic_page
                            tid ((page - 1) * env.TOPIC_PER_PAGE)).text).total_pages },
            warnings := ["Expected page " ++ toString page ++ ", got page "
              ++ toString (env.parse_page (env.get_topic_page tid
                ((page - 1) * env.TOPIC_PER_PAGE)).text).current_page],
            requests := [.topicPage tid ((page - 1) * env.TOPIC_PER_PAGE)] } := by
  have hcf : check_fields (Topic.field_is_none self) ["tid"] = .ok () := by
    simp [check_fields, Topic.field_is_none_tid, h1]
  simp [Topic.get_page, hcf, h1, h2, h3]

/-- Witness for C8 against `sample_env`: requesting page 2 issues offset
`(2 - 1) * 50 = 50`, the parser reports page 1, the mismatch warning is
recorded, and the parsed record still comes back as a `Message`. -/
theorem topic_get_page_offset_and_warning_witness :
    Topic.get_page sample_env sample_topic 2 =
      .ok { messages := [Message.init sample_record],
            new_self := { sample_topic with
                          name := some "My Topic",
                          pages := some 5 },
            warnings := ["Expected page " ++ toString (2 : Int)
              ++ ", got page " ++ toString (1 : Int)],
            requests := [.topicPage 42 50] } := by
  have h := topic_get_page_offset_and_warning sample_env sample_topic 42 2
    "My Topic" "/t/42" rfl rfl (by decide)
  simpa using h

/-- C10: a successful `get_page` leaves the declared fields `topic_name`
and `tid` unchanged — the hierarchy-derived refresh goes to the separate
`name` attribute: the new state is the old one with only `name` (set to
some value) and `pages` replaced. -/
theorem topic_get_page_preserves_topic_name (env : ForumEnv) (self : Topic)
    (page : Int) (r : GetPageResult)
    (h : Topic.get_page env self page = .ok r) :
    r.new_self.topic_name = self.topic_name ∧
    r.new_self.tid = self.tid ∧
    ∃ nm tp, r.new_self = { self with name := some nm, pages := some tp } := by
  simp only [Topic.get_page] at h
  repeat' split at h
  all_goals cases h
  all_goals exact ⟨rfl, rfl, _, _, rfl⟩

/-- Witness for C10 against `sample_env`: the prior `topic_name = "Old"`
and `tid = 42` survive a `get_page` call that wrote `name`/`pages`. -/
theorem topic_get_page_preserves_topic_name_witness :
    ({ sample_topic with
       name := some "My Topic", pages := some 5 } : Topic).topic_name =
      sample_topic.topic_name ∧
    ({ sample_topic with
       name := some "My Topic", pages := some 5 } : Topic).tid =
      sample_topic.tid :=
  ⟨(topic_get_page_preserves_topic_name sample_env sample_topic 2
      { messages := [Message.init sample_record],
        new_self := { sample_topic with
                      name := some "My Topic", pages := some 5 },
        warnings := ["Expected page " ++ toString (2 : Int)
          ++ ", got page " ++ toString (1 : Int)],
        requests := [.topicPage 42 50] } (by decide)).1,
   (topic_get_page_preserves_topic_name sample_env sample_topic 2
      { messages := [Message.init sample_record],
        new_self := { sample_topic with
                      name := some "My Topic", pages := some 5 },
        warnings := ["Expected page " ++ toString (2 : Int)
          ++ ", got page " ++ toString (1 : Int)],
        requests := [.topicPage 42 50] } (by decide)).2.1⟩

end Tbg
